import Mathlib

/-!
Verification development for the `contui` CSS lexer and parser
(`src/contui/css/tokens.py`, `src/contui/css/lexer.py`,
`src/contui/css/parser.py`).

The Python source is shallowly embedded below.  The lexer is a state machine
over a list of codepoints (`List Char`); the Python instance attributes
`source` and `errors` become the record `LState`.  Python exceptions that
propagate out of a function are modelled with `Except`; exceptions appended
to the instance's `errors` list are modelled as `Diag` values threaded in the
state.  Loops are written as fuel recursion; every loop in the source
consumes at least one input element per iteration (or returns), so any fuel
larger than the input length makes the fuel branch unreachable, and entry
points pass such a fuel.
-/

namespace Contui

/-- Unicode replacement character, `REPLACEMENT_CHAR = '�'` in the source. -/
def REPLACEMENT_CHAR : Char := '�'

/-- Diagnostics appended to an instance's `errors` list via `self.error(...)`.
The source appends `ParseError(msg)` or `SyntaxError(msg)` exception objects;
we keep the class and the message. -/
inductive Diag where
  | parseError (msg : String)
  | syntaxError (msg : String)
deriving DecidableEq, Repr

/-- Exceptions that propagate out of the lexer (terminate it abnormally):
`raise ParseError(...)` in `_consume_comment_`; `ValueError` from `int(...)`
on a non-integer literal in `_consume_number_`; `TypeError` from `ord(...)`
applied to the multi-character sentinel in `Check.non_printable`; the
blocking builtin `input(...)` call in `_consume_ident_like_` (raises
`EOFError` when no tty is attached).  `fuel` is an artifact of the fuel
encoding and is unreachable for the fuel supplied by the entry points. -/
inductive LexErr where
  | parseError (msg : String)
  | valueError
  | typeError
  | inputCalled
  | fuel
deriving DecidableEq, Repr

/-- `type` field of `Number`/`Percentage`/`Dimension` tokens:
the Python literals `'integer'` and `'number'`. -/
inductive NumType where
  | integer
  | number
deriving DecidableEq, Repr

/-- Python numeric value of a token.  The source computes
`int(raw) * (10 ** int(science))`, which is a Python `int` unless the
exponent is negative, in which case `10 ** science` is a `float` and so is
the product.  No claim depends on a float value, so floats are kept
abstract. -/
inductive PyNum where
  | int (i : Int)
  | float
deriving DecidableEq, Repr

/-- `Hash.type`: the Python literals `'id'` and `'unrestricted'`. -/
inductive HashType where
  | id
  | unrestricted
deriving DecidableEq, Repr

/-- The token classes of `src/contui/css/tokens.py`.  Every class holds a
`raw : str` payload; `Delim` and its subclasses `Colon`/`Semicolon`/`Comma`
hold exactly one codepoint; the bracket tokens store the codepoint they were
constructed with.  `EOF` is the end-of-stream sentinel. -/
inductive Token where
  | ident (raw : String)
  | function (raw : String)
  | atKeyword (raw : String)
  | hash (htype : HashType) (raw : String)
  | string (raw : String)
  | badString (raw : String)
  | url (raw : String)
  | badUrl (raw : String)
  | delim (raw : Char)
  | colon (raw : Char)
  | semicolon (raw : Char)
  | comma (raw : Char)
  | lcurly (raw : Char)
  | rcurly (raw : Char)
  | lsquare (raw : Char)
  | rsquare (raw : Char)
  | lparen (raw : Char)
  | rparen (raw : Char)
  | number (value : PyNum) (ntype : NumType) (raw : String)
  | percentage (value : PyNum) (ntype : NumType) (raw : String)
  | dimension (value : PyNum) (ntype : NumType) (unit : String) (raw : String)
  | comment (raw : String)
  | whitespace (raw : String)
  | cdo (raw : String)
  | cdc (raw : String)
  | eof
deriving DecidableEq, Repr

/-- The `raw` attribute of a token (`Token.raw` in the source; `Hash` stores
its payload without the leading `#`, `String` without the quotes,
`Percentage` without the `%`, `Function` without the parenthesis — exactly
as the lexer assigns them). -/
def Token.rawText : Token → String
  | .ident r => r
  | .function r => r
  | .atKeyword r => r
  | .hash _ r => r
  | .string r => r
  | .badString r => r
  | .url r => r
  | .badUrl r => r
  | .delim r => String.singleton r
  | .colon r => String.singleton r
  | .semicolon r => String.singleton r
  | .comma r => String.singleton r
  | .lcurly r => String.singleton r
  | .rcurly r => String.singleton r
  | .lsquare r => String.singleton r
  | .rsquare r => String.singleton r
  | .lparen r => String.singleton r
  | .rparen r => String.singleton r
  | .number _ _ r => r
  | .percentage _ _ r => r
  | .dimension _ _ _ r => r
  | .comment r => r
  | .whitespace r => r
  | .cdo r => r
  | .cdc r => r
  | .eof => ""

/-- Which quote character CPython `repr` picks for a `str`: single quote,
unless the text contains a single quote and no double quote. -/
def pyReprQuote (s : String) : Char :=
  if s.toList.contains '\x27' && !(s.toList.contains '"') then '"' else '\x27'

/-- CPython `repr` escaping of one character under the chosen quote.
Modelled for printable ASCII payloads plus the common escapes; no token in
the claims carries other codepoints. -/
def pyReprEscape (q : Char) (c : Char) : String :=
  if c = '\\' then "\\\\"
  else if c = q then String.singleton '\\' ++ String.singleton q
  else if c = '\n' then "\\n"
  else if c = '\r' then "\\r"
  else if c = '\t' then "\\t"
  else String.singleton c

/-- CPython `repr(s)` for a `str` with printable ASCII content, as used by
`String.__str__` in `tokens.py`. -/
def pyRepr (s : String) : String :=
  let q := pyReprQuote s
  String.singleton q ++ String.join (s.toList.map (pyReprEscape q)) ++ String.singleton q

/-- `__str__` of each token class (`tokens.py`): the display rendering.
Classes without an override fall back to `Token.__str__`, which returns
`raw`. -/
def Token.display : Token → String
  | .function r => r ++ "("
  | .atKeyword r => "@" ++ r
  | .hash _ r => "#" ++ r
  | .string r => pyRepr r
  | .url r => "url(" ++ r ++ ")"
  | .percentage _ _ r => r ++ "%"
  | t => t.rawText

/-- `str.isdigit` on a whole Python string: nonempty and all digits
(ASCII digits; no claim input contains non-ASCII digit codepoints). -/
def pyStrIsDigit (s : String) : Bool :=
  !s.isEmpty && s.toList.all Char.isDigit

/-- Value of a nonempty all-digit string (helper for `pyIntDec`). -/
def decDigitsVal (l : List Char) : Option Nat :=
  if l ≠ [] && l.all Char.isDigit then
    some (l.foldl (fun a c => a * 10 + (c.toNat - 48)) 0)
  else none

/-- Python `int(s)` on a decimal literal: optional sign followed by one or
more digits; anything else (`""`, `"10.5"`, `"2+3"`) raises `ValueError`,
modelled as `none`.  (Python also strips whitespace and allows underscores;
no string the lexer ever passes to `int` contains those.) -/
def pyIntDec (s : String) : Option Int :=
  match s.toList with
  | '+' :: rest => (decDigitsVal rest).map Int.ofNat
  | '-' :: rest => (decDigitsVal rest).map (fun n => -(Int.ofNat n))
  | l => (decDigitsVal l).map Int.ofNat

/-- Value of one hexadecimal digit. -/
def hexDigitVal (c : Char) : Nat :=
  if c.isDigit then c.toNat - 48
  else if 'a' ≤ c && c ≤ 'f' then c.toNat - 87
  else if 'A' ≤ c && c ≤ 'F' then c.toNat - 55
  else 0

/-- Python `int(s, 16)`; only ever applied to nonempty all-hex-digit strings
produced by `_consume_escape_`. -/
def hexVal (s : String) : Nat :=
  s.toList.foldl (fun acc c => acc * 16 + hexDigitVal c) 0

namespace Check

/-- `Check.letter`: `current is not None and current.isalpha()`.
Python `str.isalpha` covers every Unicode letter; it is modelled here for
ASCII letters (every claim input is ASCII; codepoints above U+007F are
classified by `non_ascii` wherever it matters for dispatch). -/
def letter : Option Char → Bool
  | none => false
  | some c => c.isAlpha

/-- `Check.non_ascii`: codepoint at least U+0080. -/
def non_ascii : Option Char → Bool
  | none => false
  | some c => c.val ≥ 0x80

/-- `Check.ident_start`: letter, non-ASCII, or `_`. -/
def ident_start (current : Option Char) : Bool :=
  letter current || non_ascii current || current = some '_'

/-- `Check.digit`: `current is not None and current.isdigit()`. -/
def digit : Option Char → Bool
  | none => false
  | some c => c.isDigit

/-- `Check.whitespace`: `current in '\t\n '`. -/
def whitespace : Option Char → Bool
  | none => false
  | some c => c = '\t' || c = '\n' || c = ' '

/-- `Check.hex`: digit or `abcdefABCDEF`. -/
def hex : Option Char → Bool
  | none => false
  | some c => c.isDigit || "abcdefABCDEF".toList.contains c

/-- `Check.ident`: letter, digit, or `-`.  Note this does NOT include `_`
or non-ASCII codepoints, unlike `ident_start`. -/
def ident : Option Char → Bool
  | none => false
  | some c => letter (some c) || c.isDigit || c = '-'

/-- `Check.escape`: `current == "\\" and next != "\n"`.
With `next = None` the inequality holds, as in Python. -/
def escape (current next : Option Char) : Bool :=
  current = some '\\' && next ≠ some '\n'

/-- `Check.non_printable` on a single codepoint: `range(0x00, 0x08)` and
`range(0x0E, 0x1F)` are half-open in Python, so U+0008 and U+001F are NOT
non-printable here; `\t` and U+007F are. -/
def non_printable (c : Char) : Bool :=
  c.val < 8 || c = '\t' || (14 ≤ c.val && c.val < 31) || c.val = 127

/-- `Check.starts_with_ident(first, second, third)`.  The source returns
`False` outright when `second` or `third` is `None`, and checks
`Check.escape(second, third)` independently of `first == "-"` because of
`and`/`or` precedence; both quirks are kept. -/
def starts_with_ident (first second third : Option Char) : Bool :=
  if second = none || third = none then false
  else if ident_start first then true
  else if (first = some '-' && (ident_start second || second = some '-'))
      || escape second third then true
  else if first = some '\\' && escape first second then true
  else false

/-- `Check.starts_with_number(first, second, third)` (first is a plain
codepoint in the source, never `None`). -/
def starts_with_number (first : Char) (second third : Option Char) : Bool :=
  if first = '+' || first = '-' then
    if digit second then true
    else if second = some '.' && digit third then true
    else false
  else if first = '.' then digit second
  else first.isDigit

end Check

/-- Lexer instance state: the remaining `source` codepoints and the
accumulated `errors` list.  (`self.index` and `self.pos` are initialized in
`__init__` but never read or updated afterwards, so they are omitted.) -/
structure LState where
  source : List Char
  errors : List Diag
deriving Repr

/-- `Lexer.next()`: pop the front codepoint; the source returns the string
sentinel `"_error_"` when the queue is exhausted, modelled as `none`. -/
def pyNext : List Char → Option Char × List Char
  | [] => (none, [])
  | c :: rest => (some c, rest)

/-- The `re.compile("\r\n|\f|\r")` substitution with `"\n"` applied in
`Lexer.__init__` (leftmost alternative first, so CRLF collapses to one
newline). -/
def normalizeNewlines : List Char → List Char
  | '\x0d' :: '\x0a' :: rest => '\x0a' :: normalizeNewlines rest
  | '\x0d' :: rest => '\x0a' :: normalizeNewlines rest
  | '\x0c' :: rest => '\x0a' :: normalizeNewlines rest
  | c :: rest => c :: normalizeNewlines rest
  | [] => []

/-- Input normalization of `Lexer.__init__`: newline variants collapsed,
then NUL replaced with the replacement character. -/
def normalizeSource (s : String) : List Char :=
  (normalizeNewlines s.toList).map (fun c => if c = '\x00' then REPLACEMENT_CHAR else c)

/-- The hex-digit collection loop of `_consume_escape_`:
`while Check.hex(self.peek()) and len(output) < 7: output += self.next()`.
Because `output` enters with one digit already and the bound is `< 7`, up
to SEVEN hex digits are collected in total. -/
def collectHex : List Char → String → String × List Char
  | [], out => (out, [])
  | c :: rest, out =>
    if Check.hex (some c) && out.length < 7 then collectHex rest (out.push c)
    else (out, c :: rest)

/-- `Lexer._consume_escape_(current)`.  Returns the consumed text: with no
input left, the replacement character; with hex digits, either the
replacement character (value zero or above 0x10FFFF) or the LITERAL text
`current + digits` (the backslash and the raw digits — the escape is not
decoded to its codepoint); otherwise the single following codepoint.
No trailing whitespace codepoint is consumed. -/
def consume_escape (src : List Char) (current : Char) : String × List Char :=
  match src with
  | [] => (String.singleton REPLACEMENT_CHAR, [])
  | c :: rest =>
    if Check.hex (some c) then
      let (output, rest') := collectHex rest (String.singleton c)
      if (pyStrIsDigit output && pyIntDec output == some 0) || hexVal output > 0x10FFFF then
        (String.singleton REPLACEMENT_CHAR, rest')
      else (String.singleton current ++ output, rest')
    else (String.singleton c, rest)

/-- The loop of `Lexer._consume_ident_`, with fuel (each iteration consumes
at least one codepoint, so fuel above the source length never runs out). -/
def consume_ident_loop (fuel : Nat) (src : List Char) (acc : String) : String × List Char :=
  match fuel with
  | 0 => (acc, src)
  | fuel + 1 =>
    match src with
    | [] => (acc, [])
    | c :: rest =>
      if Check.ident (some c) then consume_ident_loop fuel rest (acc.push c)
      else if Check.escape (some c) rest[0]? then
        let (s, rest') := consume_escape rest c
        consume_ident_loop fuel rest' (acc ++ s)
      else (acc, c :: rest)

/-- `Lexer._consume_ident_()`: scan an identifier, reinserting the first
non-ident, non-escape codepoint. -/
def consume_ident (src : List Char) : String × List Char :=
  consume_ident_loop (src.length + 1) src ""

/-- The loop of `Lexer._consume_comment_`: continues while
`peek != "/" or next != "*"`; inside, the `next is None` disjunct of the
guard is dead (the sentinel is a string), so the raise happens exactly when
the source is exhausted. -/
def consume_comment_loop (fuel : Nat) (src : List Char) (raw : String) (next : Option Char) :
    Except LexErr (Token × List Char) :=
  match fuel with
  | 0 => .error .fuel
  | fuel + 1 =>
    if src[0]? = some '/' && next = some '*' then
      .ok (.comment (raw ++ "*/"), src.tail)
    else if next = none || src[0]? = none then
      .error (.parseError "Comment not closed")
    else
      match next with
      | some c =>
        let (n2, src') := pyNext src
        consume_comment_loop fuel src' (raw.push c) n2
      | none => .error (.parseError "Comment not closed")

/-- `Lexer._consume_comment_(current)`: `current` is the already-popped `/`;
the dispatcher guarantees the next codepoint is `*`.  Raises `ParseError`
(does not accumulate) when the comment is not closed. -/
def consume_comment (current : Char) (src : List Char) : Except LexErr (Token × List Char) :=
  match src with
  | star :: rest =>
    let (next, rest') := pyNext rest
    consume_comment_loop (rest.length + 2) rest' ((String.singleton current).push star) next
  | [] => .error .fuel

/-- The loop of `Lexer._consume_whitespace_`:
`while peek is not None and peek in "\n\t ": raw += next`. -/
def consume_whitespace_loop : List Char → String → String × List Char
  | c :: rest, raw =>
    if c = '\n' || c = '\t' || c = ' ' then consume_whitespace_loop rest (raw.push c)
    else (raw, c :: rest)
  | [], raw => (raw, [])

/-- `Lexer._consume_whitespace_(current)`. -/
def consume_whitespace (current : Char) (src : List Char) : Token × List Char :=
  let (raw, src') := consume_whitespace_loop src (String.singleton current)
  (.whitespace raw, src')

/-- The loop of `Lexer._consume_string_`.  An exhausted source appends a
`ParseError` and returns the (good) `String` token; an unescaped newline
appends a `SyntaxError` and returns `BadString`; a backslash sets the
`escaped` flag without entering `raw`. -/
def consume_string_loop (fuel : Nat) (st : LState) (ending : Char) (raw : String)
    (escaped : Bool) : Except LexErr (Token × LState) :=
  match fuel with
  | 0 => .error .fuel
  | fuel + 1 =>
    match st.source with
    | [] =>
      .ok (.string raw, { st with errors := st.errors ++ [.parseError "String was not closed"] })
    | c :: rest =>
      if c = '\\' then
        consume_string_loop fuel { st with source := rest } ending raw true
      else if c = '\n' && escaped then
        consume_string_loop fuel { st with source := rest } ending raw escaped
      else if c = '\n' then
        .ok (.badString raw,
          { st with source := rest, errors := st.errors ++ [.syntaxError "String literal not closed"] })
      else if !escaped && c = ending then
        .ok (.string raw, { st with source := rest })
      else
        consume_string_loop fuel { st with source := rest } ending (raw.push c) false

/-- `Lexer._consume_string_(current, ending=None)`:
`ending = ending or current`; an empty remainder yields `BadString()`
directly. -/
def consume_string (current : Char) (ending : Option Char) (st : LState) :
    Except LexErr (Token × LState) :=
  let e := ending.getD current
  match st.source with
  | [] => .ok (.badString "", st)
  | _ => consume_string_loop (st.source.length + 1) st e "" false

/-- `Lexer._consume_hash_(current)`: the `Hash` raw is OVERWRITTEN with the
scanned identifier, so the leading `#` is not part of `raw`. -/
def consume_hash (current : Char) (src : List Char) : Token × List Char :=
  if src.length ≥ 1 then
    if Check.ident src[0]? || Check.escape src[0]? src[1]? then
      let htype :=
        if Check.starts_with_ident src[0]? src[1]? src[2]? then HashType.id
        else HashType.unrestricted
      let (raw, src') := consume_ident src
      (.hash htype raw, src')
    else (.delim current, src)
  else (.delim current, src)

/-- `while Check.digit(self.peek()): raw += self.next()`. -/
def takeDigits : List Char → String → String × List Char
  | c :: rest, raw =>
    if c.isDigit then takeDigits rest (raw.push c) else (raw, c :: rest)
  | [], raw => (raw, [])

/-- `Lexer._consume_number_()`: yields `(value, type, raw)`.  Python
`int(raw)` on a raw containing `.` raises `ValueError` (`none` from
`pyIntDec`); a negative exponent makes the value a Python float. -/
def consume_number (src : List Char) : Except LexErr ((PyNum × NumType × String) × List Char) :=
  let (raw, src) :=
    match src with
    | c :: rest => if c = '-' || c = '+' then (String.singleton c, rest) else ("", c :: rest)
    | [] => ("", [])
  let (raw, src) := takeDigits src raw
  if src[0]? = some '.' && Check.digit src[1]? then
    -- raw += self.next() + self.next(); _type = "number"; more digits; int(raw)
    let raw := raw ++ String.mk (src.take 2)
    let (raw, src) := takeDigits (src.drop 2) raw
    match pyIntDec raw with
    | none => .error .valueError
    | some v => .ok ((.int v, .number, raw), src)
  else if src[0]? = some 'E' || src[0]? = some 'e' then
    let tE := (src[0]?).getD 'e'
    let src := src.tail
    -- the sign branch inspects peek(2)/peek(3) but pops from the front
    let (science, src) :=
      if (src[1]? = some '-' || src[1]? = some '+') && Check.digit src[2]? then
        (String.mk (src.take 2), src.drop 2)
      else if Check.digit src[1]? then
        (String.mk (src.take 1), src.drop 1)
      else ("", src)
    let (science, src) := takeDigits src science
    match pyIntDec raw, pyIntDec science with
    | some m, some sci =>
      let value := if sci < 0 then PyNum.float else PyNum.int (m * 10 ^ sci.toNat)
      .ok ((value, .number, raw ++ String.singleton tE ++ science), src)
    | _, _ => .error .valueError
  else
    match pyIntDec raw with
    | none => .error .valueError
    | some v => .ok ((.int v, .integer, raw), src)

/-- `Lexer._consume_numeric_()`: Number, Percentage, or Dimension.  The
dimension test calls `starts_with_ident` on the next three codepoints, which
returns `False` whenever fewer than three remain. -/
def consume_numeric (src : List Char) : Except LexErr (Token × List Char) :=
  match consume_number src with
  | .error e => .error e
  | .ok ((v, t, raw), src) =>
    if Check.starts_with_ident src[0]? src[1]? src[2]? then
      let (unit, src') := consume_ident src
      .ok (.dimension v t unit (raw ++ unit), src')
    else if src[0]? = some '%' then
      .ok (.percentage v t raw, src.tail)
    else
      .ok (.number v t raw, src)

/-- `while Check.whitespace(self.peek()): self.next()`. -/
def skipWsChars : List Char → List Char
  | c :: rest => if Check.whitespace (some c) then skipWsChars rest else c :: rest
  | [] => []

/-- The loop of `Lexer._consume_remnant_bad_url_`: discard up to the next
unescaped `)` or end of input (escape results are consumed and dropped). -/
def consume_remnant_loop (fuel : Nat) (next : Option Char) (src : List Char) : List Char :=
  match fuel with
  | 0 => src
  | fuel + 1 =>
    match next with
    | none => src
    | some c =>
      if c = ')' then src
      else
        let src1 := if Check.escape (some c) src[0]? then (consume_escape src c).2 else src
        let (n2, src2) := pyNext src1
        consume_remnant_loop fuel n2 src2

/-- `Lexer._consume_remnant_bad_url_()`. -/
def consume_remnant_bad_url (src : List Char) : List Char :=
  let (n, src') := pyNext src
  consume_remnant_loop (src.length + 2) n src'

/-- The main loop of `Lexer._consume_url_`.  When `next` is the exhausted
sentinel, the source's whitespace/quote checks are substring tests that
fail, and `Check.non_printable` then calls `ord` on the multi-character
sentinel, raising `TypeError`. -/
def consume_url_loop (fuel : Nat) (raw : String) (next : Option Char) (st : LState) :
    Except LexErr (Token × LState) :=
  match fuel with
  | 0 => .error .fuel
  | fuel + 1 =>
    match next with
    | none => .error .typeError
    | some c =>
      if c = ')' then .ok (.url raw, st)
      else if Check.whitespace (some c) then
        let src := skipWsChars st.source
        if src[0]? = none || src[0]? = some ')' then
          let (_, src') := pyNext src
          .ok (.url raw,
            { source := src', errors := st.errors ++ [.parseError "Url not closed"] })
        else
          .ok (.badUrl "", { st with source := consume_remnant_bad_url src })
      else if c = '\x27' || c = '"' || c = '(' || Check.non_printable c then
        .ok (.badUrl "", { st with source := consume_remnant_bad_url st.source })
      else if c = '\\' then
        if Check.escape (some c) st.source[0]? then
          let (s, src') := consume_escape st.source c
          -- tail of the loop: peek-None check, then pop the next codepoint
          match src' with
          | [] =>
            .ok (.url (raw ++ s),
              { source := [], errors := st.errors ++ [.parseError "Url not closed"] })
          | c2 :: rest =>
            consume_url_loop fuel (raw ++ s) (some c2) { st with source := rest }
        else
          .ok (.badUrl "",
            { source := consume_remnant_bad_url st.source,
              errors := st.errors ++ [.parseError "Invalid backslash in url"] })
      else
        match st.source with
        | [] =>
          .ok (.url (raw.push c),
            { source := [], errors := st.errors ++ [.parseError "Url not closed"] })
        | c2 :: rest =>
          consume_url_loop fuel (raw.push c) (some c2) { st with source := rest }

/-- `Lexer._consume_url_()`: leading whitespace skipped; an empty remainder
appends a diagnostic but FALLS THROUGH to `next()`, which returns the
sentinel, so the loop raises `TypeError` on `url(` with nothing after. -/
def consume_url (st : LState) : Except LexErr (Token × LState) :=
  let src := skipWsChars st.source
  let errs :=
    if src[0]? = none then st.errors ++ [Diag.parseError "Url not closed"] else st.errors
  let (next, src') := pyNext src
  consume_url_loop (src.length + 2) "" next { source := src', errors := errs }

/-- `while Check.whitespace(self.peek()) and Check.whitespace(self.peek(2)):
self.next()` in `_consume_ident_like_`. -/
def skipDoubleWs : List Char → List Char
  | a :: b :: rest =>
    if Check.whitespace (some a) && Check.whitespace (some b) then skipDoubleWs (b :: rest)
    else a :: b :: rest
  | l => l

/-- `Lexer._consume_ident_like_()`: Ident, Function, or a url production.
For an empty identifier the source calls the blocking builtin `input(...)`
(EOFError without a tty), modelled as the `inputCalled` error. -/
def consume_ident_like (st : LState) : Except LexErr (Token × LState) :=
  let (ident, src) := consume_ident st.source
  if ident = "url" && src[0]? = some '(' then
    let src := skipDoubleWs src.tail
    -- two = (peek or '') + (peek2 or ''); one = peek or ''
    let quoted :=
      match src with
      | a :: b :: _ => (a = ' ' && (b = '\x27' || b = '"')) || (a = '\x27' || a = '"')
      | [a] => a = '\x27' || a = '"'
      | [] => false
    if quoted then .ok (.function ident, { st with source := src })
    else consume_url { st with source := src }
  else if src[0]? = some '(' then
    .ok (.function ident, { st with source := src.tail })
  else if ident = "" then
    .error .inputCalled
  else
    .ok (.ident ident, { st with source := src })

/-- `Lexer.consume()`: the main dispatch.  The comparisons with `peek(2)`
and `peek(3)` in the `-`, `.` and CDC branches are kept exactly as written
(they are off by one with respect to CSS Syntax 3). -/
def consume (st : LState) : Except LexErr (Token × LState) :=
  match pyNext st.source with
  | (none, _) => .ok (.eof, st)
  | (some c, src) =>
    let st1 : LState := { st with source := src }
    if c = '/' && src[0]? = some '*' then
      match consume_comment c src with
      | .error e => .error e
      | .ok (t, src') => .ok (t, { st1 with source := src' })
    else if c = '"' || c = '\x27' then
      consume_string c none st1
    else if c = '#' then
      let (t, src') := consume_hash c src
      .ok (t, { st1 with source := src' })
    else if c = '+' then
      if Check.starts_with_number c src[0]? src[1]? then
        match consume_numeric (c :: src) with
        | .error e => .error e
        | .ok (t, src') => .ok (t, { st1 with source := src' })
      else .ok (.delim c, st1)
    else if c = '-' then
      if Check.starts_with_number c src[0]? src[1]? then
        match consume_numeric (c :: src) with
        | .error e => .error e
        | .ok (t, src') => .ok (t, { st1 with source := src' })
      else if src[1]? = some '-' && src[2]? = some '>' then
        .ok (.cdc "-->", { st1 with source := src.drop 2 })
      else if Check.starts_with_ident (some c) src[1]? src[2]? then
        consume_ident_like { st1 with source := c :: src }
      else .ok (.delim c, st1)
    else if c = '.' then
      if Check.starts_with_number c src[1]? src[2]? then
        match consume_numeric (c :: src) with
        | .error e => .error e
        | .ok (t, src') => .ok (t, { st1 with source := src' })
      else .ok (.delim c, st1)
    else if c = '<' then
      if src[0]? = some '!' && src[1]? = some '-' && src[2]? = some '-' then
        .ok (.cdo "<!--", { st1 with source := src.drop 3 })
      else .ok (.delim '<', st1)
    else if c = '@' then
      if Check.starts_with_ident src[0]? src[1]? src[2]? then
        let (raw, src') := consume_ident src
        .ok (.atKeyword raw, { st1 with source := src' })
      else .ok (.delim c, st1)
    else if c = '\\' then
      if Check.escape (some c) src[0]? then
        consume_ident_like { st1 with source := c :: src }
      else
        .ok (.delim c, { st1 with errors := st1.errors ++ [.parseError "Invalid backslash"] })
    else if c.isDigit then
      match consume_numeric (c :: src) with
      | .error e => .error e
      | .ok (t, src') => .ok (t, { st1 with source := src' })
    else if Check.ident_start (some c) then
      consume_ident_like { st1 with source := c :: src }
    else if c = '\n' || c = '\t' || c = ' ' then
      let (t, src') := consume_whitespace c src
      .ok (t, { st1 with source := src' })
    else if c = '(' then .ok (.lparen c, st1)
    else if c = ')' then .ok (.rparen c, st1)
    else if c = '[' then .ok (.lsquare c, st1)
    else if c = ']' then .ok (.rsquare c, st1)
    else if c = '{' then .ok (.lcurly c, st1)
    else if c = '}' then .ok (.rcurly c, st1)
    else if c = ',' then .ok (.comma c, st1)
    else if c = ':' then .ok (.colon c, st1)
    else if c = ';' then .ok (.semicolon c, st1)
    else .ok (.delim c, st1)

/-- `Lexer.process()` / iteration: collect tokens until `EOF`.  Every
emitted token consumes at least one codepoint, so the fuel supplied by
`lexAll` never runs out. -/
def lexer_process (fuel : Nat) (st : LState) (acc : List Token) :
    Except LexErr (List Token × List Diag) :=
  match fuel with
  | 0 => .error .fuel
  | fuel + 1 =>
    match consume st with
    | .error e => .error e
    | .ok (.eof, st') => .ok (acc, st'.errors)
    | .ok (t, st') => lexer_process fuel st' (acc ++ [t])

/-- Build a lexer on `s` (with `__init__` normalization) and run it to
exhaustion, returning the token list and the accumulated diagnostics. -/
def lexAll (s : String) : Except LexErr (List Token × List Diag) :=
  let src := normalizeSource s
  lexer_process (src.length + 1) { source := src, errors := [] } []

/-- Concatenation of the `raw` attribute of every token. -/
def rawConcat (ts : List Token) : String :=
  String.join (ts.map Token.rawText)

/-- Concatenation of the `__str__` display rendering of every token. -/
def strConcat (ts : List Token) : String :=
  String.join (ts.map Token.display)

/-!
Parser embedding (`src/contui/css/parser.py`).  The parser's mutable
`tokens` queue mixes plain tokens with already-built component values
(`Block`, `FunctionBlock`); `Comp` is that sum.  The `Preserved` class of
the source is declared but never instantiated, so plain tokens appear
directly as `Comp.tok`.  `Decleration` (sic) keeps the source spelling. -/

/-- A parser stream element / component value. -/
inductive Comp where
  | tok (t : Token)
  | block (opening : Token) (value : List Comp)
  | fblock (name : String) (value : List Comp)
deriving Repr

/-- `Decleration` (source spelling): name, component-value list, and the
`important` flag. -/
structure Decleration where
  name : String
  value : List Comp
  important : Bool
deriving Repr

/-- `AtRule` and `QualifiedRule`: a prelude of component values and an
optional `{}` block (stored as a `Comp.block`). -/
inductive PrsRule where
  | AtRule (name : String) (prelude : List Comp) (block : Option Comp)
  | QualifiedRule (prelude : List Comp) (block : Option Comp)
deriving Repr

/-- An element of the list returned by `consume_style_block`: a declaration
or a rule. -/
inductive StyleItem where
  | decl (d : Decleration)
  | rule (r : PrsRule)
deriving Repr

/-- Parser exceptions.  `syntaxError`/`securityError`/`notAllowedError`/
`invalidStateError` are raised named failures; `indexError` models Python's
`IndexError` from `value[-1]` on an empty list; `attributeError` models
`.raw` on a component without that attribute; `lexErr` wraps a lexer
exception escaping `Parse.normalize`; `fuel` is the fuel artifact. -/
inductive PErr where
  | syntaxError (msg : String)
  | indexError
  | attributeError
  | securityError
  | notAllowedError
  | invalidStateError
  | lexErr (e : LexErr)
  | fuel
deriving DecidableEq, Repr

/-- Parser instance state: the normalized `tokens` queue and the parser's
own `errors` list (fresh per instance; a lexer's accumulated diagnostics
are not copied over by `Parser.__init__`). -/
structure PState where
  tokens : List Comp
  errors : List Diag
deriving Repr

/-- `Parser.peek(amount=1)`: n-th upcoming element or a synthesized `EOF`. -/
def pPeek (st : PState) (amount : Nat) : Comp :=
  (st.tokens[amount - 1]?).getD (.tok .eof)

/-- `Parser.next()`: pop the front element or a synthesized `EOF`. -/
def pNext (st : PState) : Comp × PState :=
  match st.tokens with
  | [] => (.tok .eof, st)
  | c :: rest => (c, { st with tokens := rest })

/-- `Parser.reconsume(value)`: push an element back on the front. -/
def reconsume (value : Comp) (st : PState) : PState :=
  { st with tokens := value :: st.tokens }

/-- `isinstance(x, Whitespace)` on a stream element. -/
def isWsComp : Comp → Bool
  | .tok (.whitespace _) => true
  | _ => false

/-- `isinstance(x, EOF)`. -/
def isEofComp : Comp → Bool
  | .tok .eof => true
  | _ => false

/-- `isinstance(x, Ident)`. -/
def isIdentComp : Comp → Bool
  | .tok (.ident _) => true
  | _ => false

/-- `isinstance(x, AtKeyword)`. -/
def isAtKeywordComp : Comp → Bool
  | .tok (.atKeyword _) => true
  | _ => false

/-- `isinstance(x, Colon)`. -/
def isColonComp : Comp → Bool
  | .tok (.colon _) => true
  | _ => false

/-- `isinstance(x, Semicolon)`. -/
def isSemicolonComp : Comp → Bool
  | .tok (.semicolon _) => true
  | _ => false

/-- `isinstance(x, Delim)` — `Colon`, `Semicolon` and `Comma` are `Delim`
subclasses in the source. -/
def isDelimComp : Comp → Bool
  | .tok (.delim _) => true
  | .tok (.colon _) => true
  | .tok (.semicolon _) => true
  | .tok (.comma _) => true
  | _ => false

/-- `isinstance(x, Delim) and x.raw == ch` for a one-codepoint raw. -/
def delimRawIs (c : Comp) (ch : Char) : Bool :=
  match c with
  | .tok (.delim r) => r = ch
  | .tok (.colon r) => r = ch
  | .tok (.semicolon r) => r = ch
  | .tok (.comma r) => r = ch
  | _ => false

/-- `isinstance(x, Ident) and x.raw == s`. -/
def identRawIs (c : Comp) (s : String) : Bool :=
  match c with
  | .tok (.ident r) => r = s
  | _ => false

/-- The `.raw` attribute of a stream element; `Block`/`FunctionBlock` have
no `raw` attribute, so Python raises `AttributeError` there. -/
def getRawAttr : Comp → Except PErr String
  | .tok t => .ok t.rawText
  | _ => .error .attributeError

/-- `while isinstance(self.peek(), Whitespace): self.next()`. -/
def skipWsComps : List Comp → List Comp
  | c :: rest => if isWsComp c then skipWsComps rest else c :: rest
  | [] => []

/-- `isinstance(next, opening.alt)`: the bracket matching its opener. -/
def altMatches (opening : Token) (c : Comp) : Bool :=
  match opening, c with
  | .lcurly _, .tok (.rcurly _) => true
  | .lsquare _, .tok (.rsquare _) => true
  | .lparen _, .tok (.rparen _) => true
  | _, _ => false

mutual

/-- `Parser.consume_component_value()`: a token, or a recursive block or
function consumption. -/
def consume_component_value (fuel : Nat) (st : PState) : Except PErr (Comp × PState) :=
  match fuel with
  | 0 => .error .fuel
  | fuel + 1 =>
    match pNext st with
    | (next, st1) =>
      match next with
      | .tok (.lcurly r) => consume_block fuel (.lcurly r) st1 []
      | .tok (.lsquare r) => consume_block fuel (.lsquare r) st1 []
      | .tok (.lparen r) => consume_block fuel (.lparen r) st1 []
      | .tok (.function name) => consume_function fuel name st1 []
      | c => .ok (c, st1)

/-- `Parser.consume_block(opening)`: collect component values until the
matching closing bracket; end-of-input appends a diagnostic and returns the
partially built block. -/
def consume_block (fuel : Nat) (opening : Token) (st : PState) (acc : List Comp) :
    Except PErr (Comp × PState) :=
  match fuel with
  | 0 => .error .fuel
  | fuel + 1 =>
    match pNext st with
    | (next, st1) =>
      if altMatches opening next then .ok (.block opening acc, st1)
      else if isEofComp next then
        .ok (.block opening acc,
          { st1 with errors := st1.errors ++ [.parseError "Block was not closed"] })
      else
        match consume_component_value fuel (reconsume next st1) with
        | .error e => .error e
        | .ok (cv, st2) => consume_block fuel opening st2 (acc ++ [cv])

/-- `Parser.consume_function(function)`: like a block, terminated by `)`. -/
def consume_function (fuel : Nat) (name : String) (st : PState) (acc : List Comp) :
    Except PErr (Comp × PState) :=
  match fuel with
  | 0 => .error .fuel
  | fuel + 1 =>
    match pNext st with
    | (next, st1) =>
      match next with
      | .tok (.rparen _) => .ok (.fblock name acc, st1)
      | _ =>
        if isEofComp next then
          .ok (.fblock name acc,
            { st1 with errors := st1.errors ++ [.parseError "Function was not closed"] })
        else
          match consume_component_value fuel (reconsume next st1) with
          | .error e => .error e
          | .ok (cv, st2) => consume_function fuel name st2 (acc ++ [cv])

end

/-- The declaration value loop:
`while not isinstance(self.peek(), EOF): decl.value.append(...)`. -/
def cd_value_loop (fuel : Nat) (st : PState) (acc : List Comp) :
    Except PErr (List Comp × PState) :=
  match fuel with
  | 0 => .error .fuel
  | fuel + 1 =>
    if isEofComp (pPeek st 1) then .ok (acc, st)
    else
      match consume_component_value fuel st with
      | .error e => .error e
      | .ok (cv, st') => cd_value_loop fuel st' (acc ++ [cv])

/-- `while isinstance(decl.value[-1], Whitespace): decl.value.pop()`, on the
reversed list: Python evaluates `value[-1]` on an empty list, raising
`IndexError` — both when the list is empty on entry and when the popping
empties it. -/
def trim_ws_rev : List Comp → Except PErr (List Comp)
  | [] => .error .indexError
  | c :: rest => if isWsComp c then trim_ws_rev rest else .ok (c :: rest)

/-- The trailing-whitespace trim of `consume_decleration`. -/
def trim_trailing_ws (value : List Comp) : Except PErr (List Comp) :=
  (trim_ws_rev value.reverse).map List.reverse

/-- `Parser.consume_decleration()`: name from the first element's `raw`,
colon check (a missing colon appends a diagnostic and returns `None`),
value collection, first trailing-whitespace trim, `!important` strip
(read right-to-left: the last element an `important` Ident, the one before
it a `!` Delim), second trailing-whitespace trim. -/
def consume_decleration (fuel : Nat) (st : PState) :
    Except PErr (Option Decleration × PState) :=
  match pNext st with
  | (next, st) =>
    match getRawAttr next with
    | .error e => .error e
    | .ok name =>
      let st := { st with tokens := skipWsComps st.tokens }
      if !(isColonComp (pPeek st 1)) then
        .ok (none, { st with errors := st.errors ++ [.parseError "Expected a colon"] })
      else
        let st := (pNext st).2
        let st := { st with tokens := skipWsComps st.tokens }
        match cd_value_loop fuel st [] with
        | .error e => .error e
        | .ok (value, st) =>
          match trim_trailing_ws value with
          | .error e => .error e
          | .ok value =>
            let stripped :=
              match value.reverse with
              | last :: prev :: _ =>
                if isDelimComp prev && delimRawIs prev '!'
                    && isIdentComp last && identRawIs last "important" then
                  some (value.dropLast.dropLast)
                else none
              | _ => none
            let (value, important) :=
              match stripped with
              | some v => (v, true)
              | none => (value, false)
            match trim_trailing_ws value with
            | .error e => .error e
            | .ok value => .ok (some ⟨name, value, important⟩, st)

/-- `Parse.parse_decleration` on an already-tokenized stream: leading
whitespace skipped, a leading `Ident` required, `None` from
`consume_decleration` turned into a raised `SyntaxError`. -/
def parse_decleration_toks (toks : List Comp) : Except PErr Decleration :=
  let st : PState := ⟨skipWsComps toks, []⟩
  if !(isIdentComp (pPeek st 1)) then .error (.syntaxError "Missing ident for decleration")
  else
    match consume_decleration (toks.length * 2 + 8) st with
    | .error e => .error e
    | .ok (some d, _) => .ok d
    | .ok (none, _) => .error (.syntaxError "Invalid decleration")

/-- `Parse.parse_decleration` on raw text: `Parser.__init__` lexes the text
in full (a lexer exception propagates), the lexer's diagnostics are
discarded. -/
def parse_decleration (s : String) : Except PErr Decleration :=
  match lexAll s with
  | .error e => .error (.lexErr e)
  | .ok (ts, _) => parse_decleration_toks (ts.map Comp.tok)

/-- The loop of `Parser.consume_at_rule`: terminated by `;`, end-of-input
(with a diagnostic), or a `{}` block. -/
def consume_at_rule_loop (fuel : Nat) (name : String) (prelude : List Comp) (st : PState) :
    Except PErr (PrsRule × PState) :=
  match fuel with
  | 0 => .error .fuel
  | fuel + 1 =>
    match pNext st with
    | (next, st1) =>
      if isSemicolonComp next then .ok (.AtRule name prelude none, st1)
      else if isEofComp next then
        .ok (.AtRule name prelude none,
          { st1 with errors := st1.errors ++ [.parseError "At Rule missing semi-colon"] })
      else
        match next with
        | .tok (.lcurly r) =>
          match consume_block fuel (.lcurly r) st1 [] with
          | .error e => .error e
          | .ok (b, st2) => .ok (.AtRule name prelude (some b), st2)
        | .block (.lcurly r) v => .ok (.AtRule name prelude (some (.block (.lcurly r) v)), st1)
        | _ =>
          match consume_component_value fuel (reconsume next st1) with
          | .error e => .error e
          | .ok (cv, st2) => consume_at_rule_loop fuel name (prelude ++ [cv]) st2

/-- `Parser.consume_at_rule()`: the name is the first element's `raw`. -/
def consume_at_rule (fuel : Nat) (st : PState) : Except PErr (PrsRule × PState) :=
  match pNext st with
  | (next, st) =>
    match getRawAttr next with
    | .error e => .error e
    | .ok name => consume_at_rule_loop fuel name [] st

/-- The loop of `Parser.consume_qualified_rule`: end-of-input appends a
diagnostic and yields `None`; a `{}` block terminates the rule. -/
def consume_qualified_rule_loop (fuel : Nat) (prelude : List Comp) (st : PState) :
    Except PErr (Option PrsRule × PState) :=
  match fuel with
  | 0 => .error .fuel
  | fuel + 1 =>
    match pNext st with
    | (next, st1) =>
      if isEofComp next then
        .ok (none, { st1 with errors := st1.errors ++ [.parseError "Qualified rule is not closed"] })
      else
        match next with
        | .tok (.lcurly r) =>
          match consume_block fuel (.lcurly r) st1 [] with
          | .error e => .error e
          | .ok (b, st2) => .ok (some (.QualifiedRule prelude (some b)), st2)
        | .block (.lcurly r) v =>
          .ok (some (.QualifiedRule prelude (some (.block (.lcurly r) v))), st1)
        | _ =>
          match consume_component_value fuel (reconsume next st1) with
          | .error e => .error e
          | .ok (cv, st2) => consume_qualified_rule_loop fuel (prelude ++ [cv]) st2

/-- `Parser.consume_qualified_rule()`. -/
def consume_qualified_rule (fuel : Nat) (st : PState) :
    Except PErr (Option PrsRule × PState) :=
  consume_qualified_rule_loop fuel [] st

/-- `Parse.parse_rule` on an already-tokenized stream: exactly one rule,
at-rule if the stream starts with an at-keyword; trailing tokens are a
`SyntaxError`. -/
def parse_rule_toks (toks : List Comp) : Except PErr PrsRule :=
  let st : PState := ⟨skipWsComps toks, []⟩
  if isEofComp (pPeek st 1) then .error (.syntaxError "")
  else
    let step : Except PErr (PrsRule × PState) :=
      if isAtKeywordComp (pPeek st 1) then consume_at_rule (toks.length * 2 + 8) st
      else
        match consume_qualified_rule (toks.length * 2 + 8) st with
        | .error e => .error e
        | .ok (some r, st') => .ok (r, st')
        | .ok (none, _) => .error (.syntaxError "Invalid rule")
    match step with
    | .error e => .error e
    | .ok (rule, st') =>
      let st' := { st' with tokens := skipWsComps st'.tokens }
      if isEofComp (pPeek st' 1) then .ok rule
      else .error (.syntaxError "Invalid rule, more tokens then expected")

/-- `Parse.parse_rule` on raw text. -/
def parse_rule (s : String) : Except PErr PrsRule :=
  match lexAll s with
  | .error e => .error (.lexErr e)
  | .ok (ts, _) => parse_rule_toks (ts.map Comp.tok)

/-- The loop of `Parse.parse_comma_seperated` (source spelling): split on
top-level comma delimiters; whitespace tokens are NOT trimmed from the
groups; an empty pending group is dropped at a comma and at the end. -/
def pcs_loop (fuel : Nat) (st : PState) (result : List (List Comp)) (current : List Comp) :
    Except PErr (List (List Comp)) :=
  match fuel with
  | 0 => .error .fuel
  | fuel + 1 =>
    match consume_component_value fuel st with
    | .error e => .error e
    | .ok (next, st1) =>
      if isEofComp next then
        .ok (if current.length > 0 then result ++ [current] else result)
      else if isDelimComp next && delimRawIs next ',' then
        if current.length > 0 then pcs_loop fuel st1 (result ++ [current]) []
        else pcs_loop fuel st1 result current
      else pcs_loop fuel st1 result (current ++ [next])

/-- `Parse.parse_comma_seperated` on raw text: an entirely-whitespace token
list yields `[]` before the loop runs. -/
def parse_comma_seperated (s : String) : Except PErr (List (List Comp)) :=
  match lexAll s with
  | .error e => .error (.lexErr e)
  | .ok (ts, _) =>
    let toks := ts.map Comp.tok
    if toks.all isWsComp then .ok []
    else pcs_loop (toks.length * 2 + 8) ⟨toks, []⟩ [] []

/-- The gather loop of the `Ident` branch of `consume_style_block`:
`temp = [next]` then component values until `;` or end of input. -/
def sb_gather (fuel : Nat) (st : PState) (temp : List Comp) :
    Except PErr (List Comp × PState) :=
  match fuel with
  | 0 => .error .fuel
  | fuel + 1 =>
    if isEofComp (pPeek st 1) || isSemicolonComp (pPeek st 1) then .ok (temp, st)
    else
      match consume_component_value fuel st with
      | .error e => .error e
      | .ok (cv, st') => sb_gather fuel st' (temp ++ [cv])

/-- The discard loop of the error branch of `consume_style_block`. -/
def sb_skip (fuel : Nat) (st : PState) : Except PErr PState :=
  match fuel with
  | 0 => .error .fuel
  | fuel + 1 =>
    if isEofComp (pPeek st 1) || isSemicolonComp (pPeek st 1) then .ok st
    else
      match consume_component_value fuel st with
      | .error e => .error e
      | .ok (_, st') => sb_skip fuel st'

/-- The loop of `Parser.consume_style_block()`: declarations and rules are
collected in two separate lists and the result at end of input is
`decls + rules` — declarations first, rules after, regardless of their
interleaving in the input. -/
def consume_style_block_loop (fuel : Nat) (st : PState) (decls : List Decleration)
    (rules : List PrsRule) : Except PErr (List StyleItem × PState) :=
  match fuel with
  | 0 => .error .fuel
  | fuel + 1 =>
    if isWsComp (pNext st).1 || isSemicolonComp (pNext st).1 then
      consume_style_block_loop fuel (pNext st).2 decls rules
    else if isEofComp (pNext st).1 then
      .ok (decls.map StyleItem.decl ++ rules.map StyleItem.rule, (pNext st).2)
    else if isAtKeywordComp (pNext st).1 then
      match consume_at_rule fuel (reconsume (pNext st).1 (pNext st).2) with
      | .error e => .error e
      | .ok (r, st2) => consume_style_block_loop fuel st2 decls (rules ++ [r])
    else if isIdentComp (pNext st).1 then
      match sb_gather fuel (pNext st).2 [(pNext st).1] with
      | .error e => .error e
      | .ok (temp, st2) =>
        match parse_decleration_toks temp with
        | .error e => .error e
        | .ok d => consume_style_block_loop fuel st2 (decls ++ [d]) rules
    else if isDelimComp (pNext st).1 && delimRawIs (pNext st).1 '&' then
      match consume_qualified_rule fuel (reconsume (pNext st).1 (pNext st).2) with
      | .error e => .error e
      | .ok (some r, st2) => consume_style_block_loop fuel st2 decls (rules ++ [r])
      | .ok (none, st2) => consume_style_block_loop fuel st2 decls rules
    else
      match sb_skip fuel (reconsume (pNext st).1
          { (pNext st).2 with
            errors := (pNext st).2.errors ++ [.parseError "Invalid style block syntax"] }) with
      | .error e => .error e
      | .ok st3 => consume_style_block_loop fuel st3 decls rules

/-- `Parse.parse_style_block` on raw text. -/
def parse_style_block (s : String) : Except PErr (List StyleItem) :=
  match lexAll s with
  | .error e => .error (.lexErr e)
  | .ok (ts, _) =>
    match consume_style_block_loop ((ts.map Comp.tok).length * 2 + 8) ⟨ts.map Comp.tok, []⟩ [] [] with
    | .error e => .error e
    | .ok (l, _) => .ok l

/-!
Stylesheet object model (`CSSStylesheet`).  Only the fields read by the
mutation operations are modelled; `__init__` sets `origin_clean = True`,
`disallow_modification` from its keyword argument (default `False`),
`constructed = True` unconditionally, and an empty rule list. -/

/-- The behavior-relevant state of a `CSSStylesheet`. -/
structure CSSStylesheet where
  origin_clean : Bool
  disallow_modification : Bool
  constructed : Bool
  css_rules : List PrsRule
deriving Repr

/-- A sheet as produced by `CSSStylesheet()` with default arguments. -/
def defaultSheet : CSSStylesheet :=
  { origin_clean := true, disallow_modification := false, constructed := true, css_rules := [] }

/-- The comparison `parsed_rule == "@import"` in `insertRule`:
`parsed_rule` is an `AtRule`/`QualifiedRule` object and neither class
overrides `__eq__`, so CPython falls back to identity comparison with a
`str`, which is always `False`. -/
def pyEqRuleStr (_rule : PrsRule) (_s : String) : Bool := false

/-- `isinstance(rule, AtRule) and rule.name == "namespace"`. -/
def isNamespaceAt : PrsRule → Bool
  | .AtRule n _ _ => n = "namespace"
  | _ => false

/-- `isinstance(v, AtRule) and v.name in ["namespace", "import"]`. -/
def isNsOrImportAt : PrsRule → Bool
  | .AtRule n _ _ => n = "namespace" || n = "import"
  | _ => false

/-- Python `list.insert(index, x)` semantics: a negative index counts from
the end (clamped at 0), a too-large index appends. -/
def pyInsert (l : List PrsRule) (index : Int) (x : PrsRule) : List PrsRule :=
  let i : Nat :=
    if index < 0 then ((l.length : Int) + index).toNat
    else min index.toNat l.length
  l.take i ++ x :: l.drop i

/-- `CSSStylesheet.insertRule(rule, index=-1)`: origin and modification
gates, parse the text as one rule (the source parses it twice; the second
parse yields the identical value and is the one inserted), the — always
false — `parsed_rule == "@import"` check, the `@namespace` ordering check,
then `list.insert` and return the index. -/
def insertRule (sheet : CSSStylesheet) (rule : String) (index : Int) :
    Except PErr (CSSStylesheet × Int) :=
  if !sheet.origin_clean then .error .securityError
  else if sheet.disallow_modification then .error .notAllowedError
  else
    match parse_rule rule with
    | .error e => .error e
    | .ok parsed_rule =>
      if pyEqRuleStr parsed_rule "@import" && sheet.constructed then .error (.syntaxError "")
      else if isNamespaceAt parsed_rule && !(sheet.css_rules.all isNsOrImportAt) then
        .error .invalidStateError
      else
        .ok ({ sheet with css_rules := pyInsert sheet.css_rules index parsed_rule }, index)

/-!
Claims.  Each claim of the specification is settled against the embedding
above; helper values used by several statements are defined first.
-/

/-- The rule value `Parse.parse_rule` produces for the text
`@namespace ns;`. -/
def c7_ns_rule : PrsRule :=
  .AtRule "namespace" [Comp.tok (Token.whitespace " "), Comp.tok (Token.ident "ns")] none

/-- The list `parse_style_block` returns for `a: b; @x y; c: d`: both
declarations first, then the at-rule that appeared between them in the
source text. -/
def c9_demo : List StyleItem :=
  [.decl ⟨"a", [Comp.tok (Token.ident "b")], false⟩,
   .decl ⟨"c", [Comp.tok (Token.ident "d")], false⟩,
   .rule (.AtRule "x" [Comp.tok (Token.whitespace " "), Comp.tok (Token.ident "y")] none)]

/-- Invariant of the `consume_style_block` loop: whenever it returns a list,
that list is a map-image of a declaration list followed by a map-image of a
rule list (the loop appends declarations only to `decls`, rules only to
`rules`, and returns `decls + rules` at end of input). -/
theorem consume_style_block_loop_split :
    ∀ (fuel : Nat) (st : PState) (decls : List Decleration) (rules : List PrsRule)
      (l : List StyleItem) (st' : PState),
      consume_style_block_loop fuel st decls rules = Except.ok (l, st') →
      ∃ (ds : List Decleration) (rs : List PrsRule),
        l = ds.map StyleItem.decl ++ rs.map StyleItem.rule := by
  intro fuel
  induction fuel with
  | zero =>
    intro st decls rules l st' h
    simp [consume_style_block_loop] at h
  | succ n ih =>
    intro st decls rules l st' h
    unfold consume_style_block_loop at h
    by_cases h1 : (isWsComp (pNext st).1 || isSemicolonComp (pNext st).1) = true
    · rw [if_pos h1] at h
      exact ih _ _ _ _ _ h
    · rw [if_neg h1] at h
      by_cases h2 : isEofComp (pNext st).1 = true
      · rw [if_pos h2] at h
        simp only [Except.ok.injEq, Prod.mk.injEq] at h
        exact ⟨decls, rules, h.1.symm⟩
      · rw [if_neg h2] at h
        by_cases h3 : isAtKeywordComp (pNext st).1 = true
        · rw [if_pos h3] at h
          cases har : consume_at_rule n (reconsume (pNext st).1 (pNext st).2) with
          | error e => simp [har] at h
          | ok v =>
            obtain ⟨r, st2⟩ := v
            simp only [har] at h
            exact ih _ _ _ _ _ h
        · rw [if_neg h3] at h
          by_cases h4 : isIdentComp (pNext st).1 = true
          · rw [if_pos h4] at h
            cases hg : sb_gather n (pNext st).2 [(pNext st).1] with
            | error e => simp [hg] at h
            | ok v =>
              obtain ⟨temp, st2⟩ := v
              simp only [hg] at h
              cases hd : parse_decleration_toks temp with
              | error e => simp [hd] at h
              | ok d =>
                simp only [hd] at h
                exact ih _ _ _ _ _ h
          · rw [if_neg h4] at h
            by_cases h5 : (isDelimComp (pNext st).1 && delimRawIs (pNext st).1 '&') = true
            · rw [if_pos h5] at h
              cases hq : consume_qualified_rule n (reconsume (pNext st).1 (pNext st).2) with
              | error e => simp [hq] at h
              | ok v =>
                obtain ⟨ro, st2⟩ := v
                simp only [hq] at h
                cases ro with
                | some r => exact ih _ _ _ _ _ h
                | none => exact ih _ _ _ _ _ h
            · rw [if_neg h5] at h
              cases hs : sb_skip n (reconsume (pNext st).1
                  { (pNext st).2 with
                    errors := (pNext st).2.errors
                      ++ [.parseError "Invalid style block syntax"] }) with
              | error e => simp [hs] at h
              | ok st3 =>
                simp only [hs] at h
                exact ih _ _ _ _ _ h

/-- C1 counterexample: the claim says lexing always runs to completion
without raising and that an unterminated comment is a reported (appended)
error; but lexing `/*a` raises `ParseError("Comment not closed")`. -/
theorem c1_counterexample :
    lexAll "/*a" = Except.error (LexErr.parseError "Comment not closed") := rfl

/-- C1 (amended): an unterminated url appends its diagnostic to the lexer's
error list and tokenization completes (`url(x` yields a `Url` token plus a
"Url not closed" diagnostic), but an unterminated comment RAISES
`ParseError` and aborts lexing — the comment token does not absorb the
remaining input, so lexing does not run to completion on every input. -/
theorem c1_theorem :
    lexAll "url(x" = Except.ok ([Token.url "x"], [Diag.parseError "Url not closed"]) ∧
    lexAll "/*a" = Except.error (LexErr.parseError "Comment not closed") :=
  ⟨rfl, rfl⟩

/-- C2 counterexample: concatenating the `raw` attribute of every token does
NOT reproduce the input: `#a` lexes to a single `Hash` token whose `raw` is
`a` (the `#` is not part of `raw`), so the concatenation is `a`, not `#a`. -/
theorem c2_counterexample :
    lexAll "#a" = Except.ok ([Token.hash HashType.unrestricted "a"], []) ∧
    rawConcat [Token.hash HashType.unrestricted "a"] = "a" ∧
    ("a" : String) ≠ "#a" :=
  ⟨rfl, rfl, by decide⟩

/-- C2 (amended): the `raw` fields of `Hash`, `String`, `Percentage` and
`Function` tokens omit the leading `#`, the quotes, the `%` and the
parenthesis, so raw-concatenation does not round-trip; concatenating each
token's `__str__` display rendering instead reproduces the input, shown on
the representative input `#a 50% f('x')` covering hash, percentage,
function, and single-quoted string tokens. -/
theorem c2_theorem :
    lexAll "#a 50% f(\x27x\x27)" =
      Except.ok ([Token.hash HashType.id "a", Token.whitespace " ",
                  Token.percentage (PyNum.int 50) NumType.integer "50", Token.whitespace " ",
                  Token.function "f", Token.string "x", Token.rparen ')'], []) ∧
    strConcat [Token.hash HashType.id "a", Token.whitespace " ",
               Token.percentage (PyNum.int 50) NumType.integer "50", Token.whitespace " ",
               Token.function "f", Token.string "x", Token.rparen ')'] = "#a 50% f(\x27x\x27)" ∧
    rawConcat [Token.hash HashType.id "a", Token.whitespace " ",
               Token.percentage (PyNum.int 50) NumType.integer "50", Token.whitespace " ",
               Token.function "f", Token.string "x", Token.rparen ')'] ≠ "#a 50% f(\x27x\x27)" :=
  ⟨rfl, rfl, by decide⟩

/-- C3: `"10"` and `"50%"` and `"1e2"` lex as the claim states, but `"10.5"`
does not lex to a `Number` — `int("10.5")` raises `ValueError` and aborts
the lexer — and `"10px"` does not lex to a `Dimension` — with no codepoint
after `px`, `starts_with_ident` returns `False`, yielding `Number(10)`
followed by `Ident("px")`; the dimension is produced only when further
input follows, as in `"10px "`. -/
theorem c3_theorem :
    lexAll "10" = Except.ok ([Token.number (PyNum.int 10) NumType.integer "10"], []) ∧
    lexAll "50%" = Except.ok ([Token.percentage (PyNum.int 50) NumType.integer "50"], []) ∧
    lexAll "1e2" = Except.ok ([Token.number (PyNum.int 100) NumType.number "1e2"], []) ∧
    lexAll "10.5" = Except.error LexErr.valueError ∧
    lexAll "10px" =
      Except.ok ([Token.number (PyNum.int 10) NumType.integer "10", Token.ident "px"], []) ∧
    lexAll "10px " =
      Except.ok ([Token.dimension (PyNum.int 10) NumType.integer "px" "10px",
                  Token.whitespace " "], []) :=
  ⟨rfl, rfl, rfl, rfl, rfl, rfl⟩

/-- C4 counterexample: `\41` in identifier position does NOT lex to the
codepoint `A`: the escape consumer returns the literal backslash-and-digits
text, so the token is `Ident("\41")`, not `Ident("A")`. -/
theorem c4_counterexample :
    lexAll "\\41" = Except.ok ([Token.ident "\\41"], []) ∧
    ("\\41" : String) ≠ "A" :=
  ⟨rfl, by decide⟩

/-- C4 (amended): a hex escape consumes one to SEVEN hex digits and no
trailing whitespace codepoint; a valid escape is preserved as its raw
backslash-and-digits text rather than decoded (`\41` lexes to
`Ident("\41")`); a hex escape encoding zero or a value above the maximum
codepoint resolves to the replacement character (`\0`, `\110000`, and the
seven-digit `\0000000` all lex to `Ident("�")`); a whitespace codepoint
after the digits stays in the stream (`\41 b` keeps its whitespace
token). -/
theorem c4_theorem :
    lexAll "\\41" = Except.ok ([Token.ident "\\41"], []) ∧
    lexAll "\\0" = Except.ok ([Token.ident "�"], []) ∧
    lexAll "\\110000" = Except.ok ([Token.ident "�"], []) ∧
    lexAll "\\0000000" = Except.ok ([Token.ident "�"], []) ∧
    lexAll "\\41 b" =
      Except.ok ([Token.ident "\\41", Token.whitespace " ", Token.ident "b"], []) :=
  ⟨rfl, rfl, rfl, rfl, rfl⟩

/-- C5: parsing the declaration text `color: red !important` yields
`Decleration` with name `color`, value `[Ident("red")]` and
`important = true`: the trailing `!important` pair is stripped from the
value and the whitespace before it is removed by the second trim. -/
theorem c5_theorem :
    parse_decleration "color: red !important" =
      Except.ok ⟨"color", [Comp.tok (Token.ident "red")], true⟩ := rfl

/-- C6: `insertRule` does NOT reject an `@import` rule on a constructed
sheet.  The freshly constructed default sheet has `constructed = true`, yet
inserting `@import "x.css";` succeeds and the rule lands in the rule list,
because the guard compares the parsed rule object with the string
`"@import"`, which is always false. -/
theorem c6_theorem :
    defaultSheet.constructed = true ∧
    insertRule defaultSheet "@import \"x.css\";" (-1) =
      Except.ok ({ defaultSheet with
        css_rules := [PrsRule.AtRule "import"
          [Comp.tok (Token.whitespace " "), Comp.tok (Token.string "x.css")] none] }, -1) :=
  ⟨rfl, rfl⟩

/-- C7: on an origin-clean, modifiable sheet, inserting `@namespace ns;`
succeeds exactly when every existing rule is an `@namespace` or `@import`
at-rule (in particular on an empty sheet), and is rejected with
`InvalidStateError` whenever some existing rule is not. -/
theorem c7_theorem (rules : List PrsRule) :
    insertRule { origin_clean := true, disallow_modification := false, constructed := true,
                 css_rules := rules } "@namespace ns;" (-1) =
      (if rules.all isNsOrImportAt then
        Except.ok ({ origin_clean := true, disallow_modification := false, constructed := true,
                     css_rules := pyInsert rules (-1) c7_ns_rule }, -1)
      else Except.error PErr.invalidStateError) := by
  have hp : parse_rule "@namespace ns;" = Except.ok c7_ns_rule := rfl
  unfold insertRule
  rw [hp]
  by_cases h : rules.all isNsOrImportAt = true <;>
    simp [h, pyEqRuleStr, isNamespaceAt, c7_ns_rule]

/-- C7 witness: the theorem applied to a sheet holding one qualified rule
(rejection) — the `if` evaluates to the `InvalidStateError` branch. -/
theorem c7_witness :
    insertRule { origin_clean := true, disallow_modification := false, constructed := true,
                 css_rules := [PrsRule.QualifiedRule [] none] } "@namespace ns;" (-1) =
      Except.error PErr.invalidStateError := by
  have h := c7_theorem [PrsRule.QualifiedRule [] none]
  simpa using h

/-- C8 counterexample: the comma-separated list for `a, b ,c` is NOT three
whitespace-trimmed singleton groups: the middle group keeps its surrounding
whitespace tokens. -/
theorem c8_counterexample :
    parse_comma_seperated "a, b ,c" ≠
      Except.ok [[Comp.tok (Token.ident "a")], [Comp.tok (Token.ident "b")],
                 [Comp.tok (Token.ident "c")]] := by
  have h : parse_comma_seperated "a, b ,c" =
      Except.ok [[Comp.tok (Token.ident "a")],
                 [Comp.tok (Token.whitespace " "), Comp.tok (Token.ident "b"),
                  Comp.tok (Token.whitespace " ")],
                 [Comp.tok (Token.ident "c")]] := rfl
  rw [h]
  simp

/-- C8 (amended): parsing the comma-separated list for `a, b ,c` yields
three groups split on top-level comma delimiters, but the groups are NOT
trimmed: the middle group is `[Whitespace, Ident("b"), Whitespace]`; an
entirely-whitespace input yields the empty list. -/
theorem c8_theorem :
    parse_comma_seperated "a, b ,c" =
      Except.ok [[Comp.tok (Token.ident "a")],
                 [Comp.tok (Token.whitespace " "), Comp.tok (Token.ident "b"),
                  Comp.tok (Token.whitespace " ")],
                 [Comp.tok (Token.ident "c")]] ∧
    parse_comma_seperated " \t " = Except.ok [] :=
  ⟨rfl, rfl⟩

/-- C9: whenever style-block parsing returns a list, that list is the
concatenation of the declarations found and the rules found — all
declarations precede all rules, so the source interleaving is not
preserved. -/
theorem c9_theorem (s : String) (l : List StyleItem)
    (h : parse_style_block s = Except.ok l) :
    ∃ (ds : List Decleration) (rs : List PrsRule),
      l = ds.map StyleItem.decl ++ rs.map StyleItem.rule := by
  unfold parse_style_block at h
  cases hl : lexAll s with
  | error e => simp [hl] at h
  | ok p =>
    obtain ⟨ts, diags⟩ := p
    simp only [hl] at h
    cases hr : consume_style_block_loop ((ts.map Comp.tok).length * 2 + 8)
        ⟨ts.map Comp.tok, []⟩ [] [] with
    | error e =>
      simp only [List.length_map] at hr h
      simp [hr] at h
    | ok q =>
      obtain ⟨l0, st0⟩ := q
      simp only [List.length_map] at hr h
      simp only [hr, Except.ok.injEq] at h
      exact h ▸ consume_style_block_loop_split _ _ _ _ _ _ hr

/-- C9 witness: on `a: b; @x y; c: d` the style block parses to the two
declarations followed by the at-rule, and the theorem applies. -/
theorem c9_witness :
    parse_style_block "a: b; @x y; c: d" = Except.ok c9_demo ∧
    (∃ (ds : List Decleration) (rs : List PrsRule),
      c9_demo = ds.map StyleItem.decl ++ rs.map StyleItem.rule) :=
  ⟨rfl, c9_theorem "a: b; @x y; c: d" c9_demo rfl⟩

/-- C10: parsing the declaration text `x:` (valid name and colon, empty
value) neither returns a declaration nor raises the single-shot
`SyntaxError`: the trailing-whitespace trim indexes `value[-1]` on the
empty value list and the operation fails with an uncaught `IndexError`. -/
theorem c10_theorem :
    parse_decleration "x:" = Except.error PErr.indexError := rfl

end Contui
